import Mathlib

/-!
Formal model of the coinlocker deposit-to-swap pipeline.

This file gives a shallow embedding of the two core modules of the
repository and proves properties of the embedded definitions:

* `src/src/lockin.rs` — the swap-execution controller
  (`LockinClient::execute`, `confirm_transaction`, `initiate_refund`);
* `src/src/poller.rs` — the deposit poller
  (`poll_kraken`, `handle_transaction`, `should_process_transaction`,
  `process_user_transaction`, `process_successful_transaction`);
* `src/src/kraken.rs` — the exchange trading client
  (`check_minimum_volume`, `execute_swap`).

Modelling conventions:

* Every external call (RPC request, Jupiter quote/swap, Kraken API call,
  Mongo read/write) is an interaction with an environment record whose
  fields give the outcome of each call.  The control flow around those
  outcomes is translated from the source verbatim.
* `f64` amounts are modelled as exact rationals (`Rat`).  None of the
  properties proved here depend on floating-point rounding: they are about
  control flow, which value is written to which field, and integer
  (`u64`/`u16`/`usize`) arithmetic.  The `f64` fee pipeline in `execute`
  (balance, `0.9` head-room factor, gas, rent, small fee, cast to `u64`)
  is abstracted into the single environment field `maxSwapAmount`, the
  `u64` value produced by the cast (a negative `f64` saturates to `0`
  when cast to `u64`, so the value is a natural number).
* Calls whose traced occurrence matters to the specification are recorded
  as events in an output list, in program order.
* Rust `panic!`/`unwrap` failure is a distinct outcome constructor, never
  a silently-total Lean value.
-/

namespace Coinlocker

/-! ## Constants of src/src/lockin.rs (`LockinClient::execute`) -/

/-- `const RETRY_LIMIT: usize = 3` in `execute`. -/
def RETRY_LIMIT : Nat := 3

/-- `const MAX_SLIPPAGE_BPS: u16 = 2500` in `execute`. -/
def MAX_SLIPPAGE_BPS : Nat := 2500

/-- `const CONFIRMATION_RETRIES: usize = 5` in `confirm_transaction`. -/
def CONFIRMATION_RETRIES : Nat := 5

/-- Modulus of the Rust `u16` type carrying `slippage_bps`. -/
def U16_MOD : Nat := 65536

/-- One slippage-escalation step:
`slippage_bps = (slippage_bps * 2).min(MAX_SLIPPAGE_BPS)` on a `u16`
(release-mode wrapping arithmetic is the `% U16_MOD`). -/
def nextSlippage (s : Nat) : Nat := min (s * 2 % U16_MOD) MAX_SLIPPAGE_BPS

/-! ## Environment and trace of `LockinClient::execute` -/

/-- Solana public keys, abstracted to their base58 string form. -/
abbrev Pubkey := String

/-- Outcomes of the external calls made by one iteration of the retry
loop in `execute`.  A `false` in an `…Ok` field means that call returned
`Err`; `simErrIsNull` is whether `simulation_response["result"]["err"]`
is JSON null; `confirmed` is the `bool` returned by
`confirm_transaction`. -/
structure AttemptEnv where
  quoteOk : Bool
  ataOk : Bool
  swapOk : Bool
  instructionsOk : Bool
  createTxOk : Bool
  simulateCallOk : Bool
  simErrIsNull : Bool
  sendOk : Bool
  confirmed : Bool
  refundOk : Bool
  deriving DecidableEq, Repr

/-- Environment of one call to `execute`: outcomes of the pre-loop calls,
the computed `max_swap_amount` (`u64`), and the per-attempt outcomes.
`sendOk = true` models a successful `sendTransaction` RPC call whose
response carries the signature string that the source then hands to
`confirm_transaction`. -/
structure ExecEnv where
  balanceOk : Bool
  rentOk : Bool
  maxSwapAmount : Nat
  attempts : Nat → AttemptEnv

/-- Result of `execute`, mirroring `Result<(), anyhow::Error>` with the
`LockinClientError` variants that can be carried by the error case. -/
inductive ExecResult
  | ok
  | balanceErr
  | rentExemptionErr
  | quoteErr
  | ataErr
  | swapInstructionsErr
  | transactionErr
  | simulateErr
  | sendErr
  | transactionConfirmationErr
  | swapErr
  | refundErr
  deriving DecidableEq, Repr

/-- Observable external actions of `execute`, in program order. -/
inductive ExecEvent
  | quoteRequest (attempt : Nat) (amount : Nat) (slippageBps : Nat)
  | simulate (attempt : Nat) (errIsNull : Bool)
  | sendTransaction (attempt : Nat)
  | refund (recipient : Pubkey) (amount : Nat)
  deriving DecidableEq, Repr

/-- The retry loop of `execute` (`for attempt in 0..RETRY_LIMIT`),
translated branch by branch.  `rem` is the number of iterations left
(`RETRY_LIMIT - attempt`); recursion is on `rem`.  A `?` early return in
the source is an error-result leaf here. -/
def executeLoop (att : Nat → AttemptEnv) (maxSwap : Nat) (recv : Pubkey) :
    Nat → Nat → Nat → ExecResult × List ExecEvent
  | 0, _, _ => (.ok, [])
  | rem + 1, attempt, slippageBps =>
    let e := att attempt
    let evQuote := [ExecEvent.quoteRequest attempt maxSwap slippageBps]
    if e.quoteOk then
      if e.ataOk then
        if e.swapOk then
          if e.instructionsOk then
            if e.createTxOk then
              if e.simulateCallOk then
                let evSim := evQuote ++ [ExecEvent.simulate attempt e.simErrIsNull]
                if e.simErrIsNull then
                  let evSend := evSim ++ [ExecEvent.sendTransaction attempt]
                  if e.sendOk then
                    if e.confirmed then (.ok, evSend)
                    else
                      let evRef := evSend ++ [ExecEvent.refund recv maxSwap]
                      if e.refundOk then (.transactionConfirmationErr, evRef)
                      else (.refundErr, evRef)
                  else (.sendErr, evSend)
                else
                  let next := executeLoop att maxSwap recv rem (attempt + 1)
                    (nextSlippage slippageBps)
                  (next.1, evSim ++ next.2)
              else (.simulateErr, evQuote)
            else (.transactionErr, evQuote)
          else (.swapInstructionsErr, evQuote)
        else
          if attempt = RETRY_LIMIT - 1 then
            let evRef := evQuote ++ [ExecEvent.refund recv maxSwap]
            if e.refundOk then (.swapErr, evRef) else (.refundErr, evRef)
          else
            let next := executeLoop att maxSwap recv rem (attempt + 1) slippageBps
            (next.1, evQuote ++ next.2)
      else (.ataErr, evQuote)
    else (.quoteErr, evQuote)

/-- `LockinClient::execute`.  Balance query, rent-exemption query, the
`max_swap_amount <= 0` guard (on `u64`, hence `= 0`; the guard branch
prints and returns `Ok(())`), then the retry loop starting from the
caller-supplied `initial_slippage_bps`. -/
def execute (env : ExecEnv) (recv : Pubkey) (initialSlippageBps : Nat) :
    ExecResult × List ExecEvent :=
  if env.balanceOk then
    if env.rentOk then
      if env.maxSwapAmount ≤ 0 then (.ok, [])
      else executeLoop env.attempts env.maxSwapAmount recv RETRY_LIMIT 0 initialSlippageBps
    else (.rentExemptionErr, [])
  else (.balanceErr, [])

/-- The refund events of a trace. -/
def refundEvents (evs : List ExecEvent) : List ExecEvent :=
  evs.filter fun e => match e with | .refund _ _ => true | _ => false

/-! ## `LockinClient::confirm_transaction` -/

/-- Outcome of one `check_transaction_confirmation` poll: the RPC call
errored, returned a JSON-null `result`, or returned a non-null result. -/
inductive PollOutcome
  | rpcError
  | nullResult
  | someResult
  deriving DecidableEq, Repr

/-- What one call to `confirm_transaction` did: its boolean return value,
the sequence of back-off sleeps (in seconds), and how many polls it made. -/
structure ConfirmRun where
  confirmed : Bool
  delays : List Nat
  pollsMade : Nat
  deriving DecidableEq, Repr

/-- The loop of `confirm_transaction`: up to `rem` more polls, next poll
index `i`, current `backoff` (seconds).  A non-null result returns `true`
immediately; an error or a null result falls through to the sleep and the
doubled back-off. -/
def confirmLoop (polls : Nat → PollOutcome) : Nat → Nat → Nat → ConfirmRun
  | 0, _, _ => ⟨false, [], 0⟩
  | rem + 1, i, backoff =>
    match polls i with
    | .someResult => ⟨true, [], 1⟩
    | _ =>
      let r := confirmLoop polls rem (i + 1) (backoff * 2)
      ⟨r.confirmed, backoff :: r.delays, r.pollsMade + 1⟩

/-- `confirm_transaction`: `CONFIRMATION_RETRIES = 5` polls starting with
a 5-second back-off. -/
def confirmTransaction (polls : Nat → PollOutcome) : ConfirmRun :=
  confirmLoop polls CONFIRMATION_RETRIES 0 5

/-! ## Data model of src/src/poller.rs and src/src/mongo.rs -/

/-- `f64` amounts, modelled as exact rationals (see the header note). -/
abbrev Amount := Rat

/-- Errors of `src/src/error_handling.rs` (`AppError`), restricted to the
variants reachable from the poller pipeline. -/
inductive AppErr
  | internalServerError
  | customError (msg : String)
  | databaseError
  | krakenError
  deriving DecidableEq, Repr

/-- Outcome of one poller step: `Ok(())`, `Err(e)` propagated by `?`, or
a Rust panic (`unwrap` on a missing/mistyped field). -/
inductive StepOutcome
  | ok
  | err (e : AppErr)
  | panicked
  deriving DecidableEq, Repr

/-- The fields of the `User` record (src/src/mongo.rs) used by the
poller.  `total_purchased` lives at the Mongo document level (it is
written by `$set`), so it may be absent before the first write. -/
structure User where
  userId : Int
  totalDeposit : Amount
  totalPurchased : Option Amount
  solanaPublicKey : Option String
  deriving DecidableEq, Repr

/-- The BSON value stored under `user_id` in a transaction document, as
discriminated by `poll_kraken` (`Bson::Int32` / `Bson::Int64` / other
element type). -/
inductive BsonUserId
  | int32 (n : Int)
  | int64 (n : Int)
  | otherType
  deriving DecidableEq, Repr

/-- A transaction document, restricted to the fields the poller reads.
`status = none` models a missing or non-string `status` field
(`get_str` returns `Err`); `processed = none` models a missing or
non-bool `processed` field (`get_bool(..).unwrap()` panics);
`userId = none` models a missing `user_id` field. -/
structure TxDoc where
  address : String
  userId : Option BsonUserId
  status : Option String
  processed : Option Bool
  deriving DecidableEq, Repr

/-- The record store: the `users` and `transactions` collections. -/
structure DB where
  users : List User
  txs : List TxDoc
  deriving DecidableEq, Repr

/-- `users_collection.find_one(doc! { "user_id": user_id })`. -/
def findUser (db : DB) (uid : Int) : Option User :=
  db.users.find? fun u => u.userId == uid

/-- `transactions_collection.find_one(doc! { "address": address })`. -/
def findTx (db : DB) (addr : String) : Option TxDoc :=
  db.txs.find? fun t => t.address == addr

/-- `update_one({address}, {$set: {status}})`.  Key-uniqueness (§3 of the
record-store contract) makes updating every match equal to updating the
first. -/
def updateTxStatus (db : DB) (addr : String) (st : String) : DB :=
  { db with txs := db.txs.map fun t =>
      if t.address == addr then { t with status := some st } else t }

/-- `update_one({address}, {$set: {processed: true}})`. -/
def updateTxProcessed (db : DB) (addr : String) : DB :=
  { db with txs := db.txs.map fun t =>
      if t.address == addr then { t with processed := some true } else t }

/-- `update_one({user_id}, {$set: {total_deposit: v}})`. -/
def updateUserTotalDeposit (db : DB) (uid : Int) (v : Amount) : DB :=
  { db with users := db.users.map fun u =>
      if u.userId == uid then { u with totalDeposit := v } else u }

/-- `update_one({user_id}, {$set: {total_purchased: v}})`. -/
def updateUserTotalPurchased (db : DB) (uid : Int) (v : Amount) : DB :=
  { db with users := db.users.map fun u =>
      if u.userId == uid then { u with totalPurchased := some v } else u }

/-! ## src/src/kraken.rs (the slice used by the poller) -/

/-- `kraken_rest_client::OrderSide`, the two sides used. -/
inductive OrderSide
  | buy
  | sell
  deriving DecidableEq, Repr

/-- The enriched `execute_swap` response: the order `Value` extended with
the caller-computed `notional_usd_value` and `notional_sol_value`. -/
structure SwapResult where
  notionalUsdValue : Amount
  notionalSolValue : Amount
  deriving DecidableEq, Repr

/-- Outcomes of the Kraken-side external calls: `get_asset_value`
(ticker price lookup), the `AddOrder` private call inside `execute_swap`
(environment-variable failures folded in), and the `Withdraw` call of
`withdraw_assets`. -/
structure KrakenEnv where
  assetPriceUsd : String → Except AppErr Amount
  addOrder : String → OrderSide → Amount → Except AppErr Unit
  withdraw : String → String → String → Amount → Except AppErr Unit

/-- `check_minimum_volume`: only `"BTC"` has a non-zero minimum
(`0.0001`); every other asset falls to the `_ => 0.0` arm. -/
def checkMinimumVolume (asset : String) (volume : Amount) : Except AppErr Unit :=
  let minVolume : Amount := if asset == "BTC" then 1 / 10000 else 0
  if volume < minVolume then .error .internalServerError else .ok ()

/-- `execute_swap(pair, side, volume)`: minimum-volume check on
`&pair[..3]`, price lookups for the notional enrichment, then the
`AddOrder` call; on success the response carries the two notionals. -/
def executeSwapK (env : KrakenEnv) (pair : String) (side : OrderSide)
    (volume : Amount) : Except AppErr SwapResult :=
  match checkMinimumVolume (pair.take 3) volume with
  | .error e => .error e
  | .ok _ =>
    match env.assetPriceUsd (pair.take 3) with
    | .error e => .error e
    | .ok price =>
      match env.assetPriceUsd "SOL" with
      | .error e => .error e
      | .ok solPrice =>
        match env.addOrder pair side volume with
        | .error e => .error e
        | .ok _ =>
          .ok { notionalUsdValue := volume * price,
                notionalSolValue := volume * price / solPrice }

/-! ## src/src/poller.rs -/

/-- Observable actions of one poll cycle, in program order.  Record-store
writes are events as well as state updates; `lockinLaunched` is the
`tokio::task::spawn` of the on-chain leg (its body is the `execute`
model above, run concurrently). -/
inductive PollEvent
  | setTxStatus (address status : String)
  | setTxProcessed (address : String)
  | setTotalDeposit (userId : Int) (value : Amount)
  | setTotalPurchased (userId : Int) (value : Amount)
  | sellOrder (volume : Amount)
  | buyOrder (volume : Amount)
  | withdrawCall (amount : Amount)
  | lockinLaunched (userSolAddress : String) (amount : Amount)
  deriving DecidableEq, Repr

/-- `should_process_transaction(tx)`.  The guard of the first match arm
is `existing_status == "Success" && !(tx.get_bool("processed").unwrap())`;
`&&` short-circuits, so the `unwrap` panic (`none` result) is reachable
only when the stored status string is `"Success"`. -/
def shouldProcessTransaction (tx : TxDoc) : Option Bool :=
  match tx.status with
  | some existingStatus =>
    if existingStatus == "Success" then
      match tx.processed with
      | some p => some (!p)
      | none => none
    else some false
  | none => some false

/-- `process_successful_transaction`: the non-positive-amount skip, the
`0.0001` volume floor, BTC→USD sell, USD→SOL buy with the notional SOL
value, the withdrawal floor and withdrawal, the spawned on-chain leg,
and finally the `total_purchased := new_total_deposit` write. -/
def processSuccessfulTransaction (env : KrakenEnv) (db : DB) (amount : Amount)
    (userSolAddress : String) (userId : Int) (newTotalDeposit : Amount) :
    StepOutcome × DB × List PollEvent :=
  let swapAmount := amount
  if swapAmount ≤ 0 then (.ok, db, [])
  else if swapAmount < 1 / 10000 then
    (.err (.customError "Volume too small"), db, [])
  else
    match executeSwapK env "BTCUSD" .sell swapAmount with
    | .error e => (.err e, db, [PollEvent.sellOrder swapAmount])
    | .ok btcUsdResponse =>
      let solAmount := btcUsdResponse.notionalSolValue
      match executeSwapK env "SOLUSD" .buy solAmount with
      | .error e =>
        (.err e, db, [PollEvent.sellOrder swapAmount, PollEvent.buyOrder solAmount])
      | .ok usdSolResponse =>
        let amountToWithdraw := usdSolResponse.notionalSolValue
        if amountToWithdraw < 1 / 10000 then
          (.err (.customError "Amount to withdraw too small"), db,
            [PollEvent.sellOrder swapAmount, PollEvent.buyOrder solAmount])
        else
          match env.withdraw "SOL" "bottest"
              "fdXt9eYUTCCeDdrURxS9u6ALnHPLXBNuc1MNqmSR7jA" amountToWithdraw with
          | .error e =>
            (.err e, db,
              [PollEvent.sellOrder swapAmount, PollEvent.buyOrder solAmount,
               PollEvent.withdrawCall amountToWithdraw])
          | .ok _ =>
            (.ok, updateUserTotalPurchased db userId newTotalDeposit,
              [PollEvent.sellOrder swapAmount, PollEvent.buyOrder solAmount,
               PollEvent.withdrawCall amountToWithdraw,
               PollEvent.lockinLaunched userSolAddress amountToWithdraw,
               PollEvent.setTotalPurchased userId newTotalDeposit])

/-- `process_user_transaction`: computes the new running deposit total,
writes it unconditionally, then runs the conversion chain only when the
freshly reported status is `"Success"`.  The `Pubkey::from_str` fallback
to the default key keeps the address a string here. -/
def processUserTransaction (env : KrakenEnv) (db : DB) (amount : Amount)
    (userId : Int) (status : String) (userDoc : User) :
    StepOutcome × DB × List PollEvent :=
  let newTotalDeposit := userDoc.totalDeposit + amount
  let foundAddress := userDoc.solanaPublicKey.getD ""
  let db1 := updateUserTotalDeposit db userId newTotalDeposit
  let ev1 := [PollEvent.setTotalDeposit userId newTotalDeposit]
  if status == "Success" then
    let next := processSuccessfulTransaction env db1 amount foundAddress userId
      newTotalDeposit
    (next.1, next.2.1, ev1 ++ next.2.2)
  else (.ok, db1, ev1)

/-- `handle_transaction`: user lookup, status write-through, the
deduplication gate on the *pre-update snapshot* `tx`, the per-user
processing, and the `processed := true` write after the chain returns
`Ok`. -/
def handleTransaction (env : KrakenEnv) (db : DB) (userId : Int)
    (amount : Amount) (address status : String) (tx : TxDoc) :
    StepOutcome × DB × List PollEvent :=
  match findUser db userId with
  | none => (.ok, db, [])
  | some userDoc =>
    let db1 := updateTxStatus db address status
    let ev1 := [PollEvent.setTxStatus address status]
    match shouldProcessTransaction tx with
    | none => (.panicked, db1, ev1)
    | some false => (.ok, db1, ev1)
    | some true =>
      let next := processUserTransaction env db1 amount userId status userDoc
      match next.1 with
      | .ok =>
        (.ok, updateTxProcessed next.2.1 address,
          ev1 ++ next.2.2 ++ [PollEvent.setTxProcessed address])
      | o => (o, next.2.1, ev1 ++ next.2.2)

/-- One deposit entry of the Kraken `DepositStatus` response, after the
`unwrap_or` defaults of `poll_kraken` (`status`/`info` default to
`"Unknown"`).  `amount` is the result of
`transaction["amount"].as_str().unwrap_or("0.0").parse::<f64>()`; its
error case is the `ParseFloatError` converted into
`AppError::CustomError` and propagated by `?`. -/
structure DepositEntry where
  amount : Except AppErr Amount
  status : String
  time : Int
  address : String
  deriving Repr

instance : DecidableEq (Except AppErr Amount) := fun a b =>
  match a, b with
  | .error x, .error y =>
    if h : x = y then isTrue (by rw [h]) else isFalse (by simp [h])
  | .error _, .ok _ => isFalse (by simp)
  | .ok _, .error _ => isFalse (by simp)
  | .ok x, .ok y =>
    if h : x = y then isTrue (by rw [h]) else isFalse (by simp [h])

instance : DecidableEq DepositEntry := fun a b =>
  match a, b with
  | ⟨a1, a2, a3, a4⟩, ⟨b1, b2, b3, b4⟩ =>
    if h : a1 = b1 ∧ a2 = b2 ∧ a3 = b3 ∧ a4 = b4 then
      isTrue (by obtain ⟨h1, h2, h3, h4⟩ := h; rw [h1, h2, h3, h4])
    else isFalse (by intro hc; cases hc; exact h ⟨rfl, rfl, rfl, rfl⟩)

/-- `poll_kraken`, the per-cycle transaction loop: amount parse, store
lookup by address, `user_id` type dispatch (`Int32` is cast to `i64`),
`handle_transaction` with `?` propagation — so an `Err` (or a panic)
from one deposit ends the cycle before later deposits are examined. -/
def pollKraken (env : KrakenEnv) : DB → List DepositEntry →
    StepOutcome × DB × List PollEvent
  | db, [] => (.ok, db, [])
  | db, entry :: rest =>
    match entry.amount with
    | .error e => (.err e, db, [])
    | .ok amount =>
      match findTx db entry.address with
      | none => pollKraken env db rest
      | some tx =>
        match tx.userId with
        | some (BsonUserId.int32 n) =>
          let hd := handleTransaction env db n amount entry.address entry.status tx
          match hd.1 with
          | .ok =>
            let next := pollKraken env hd.2.1 rest
            (next.1, next.2.1, hd.2.2 ++ next.2.2)
          | o => (o, hd.2.1, hd.2.2)
        | some (BsonUserId.int64 n) =>
          let hd := handleTransaction env db n amount entry.address entry.status tx
          match hd.1 with
          | .ok =>
            let next := pollKraken env hd.2.1 rest
            (next.1, next.2.1, hd.2.2 ++ next.2.2)
          | o => (o, hd.2.1, hd.2.2)
        | some BsonUserId.otherType => pollKraken env db rest
        | none => pollKraken env db rest

/-- One turn of the `start_poller` loop: `poll_kraken`'s `Ok`/`Err` are
both merely printed and the loop continues with the next tick; a panic
unwinds through `start_poller` and kills the poller task (`none`). -/
def startPollerCycle (env : KrakenEnv) (db : DB) (entries : List DepositEntry) :
    Option (DB × List PollEvent) :=
  match pollKraken env db entries with
  | (.panicked, _, _) => none
  | (_, db1, evs) => some (db1, evs)

/-! ## Predicates used by the statements -/

/-- One retry-loop iteration whose external calls all succeed but whose
local simulation reports an error (`result.err` non-null). -/
def simulationRejected (e : AttemptEnv) : Prop :=
  e.quoteOk = true ∧ e.ataOk = true ∧ e.swapOk = true ∧ e.instructionsOk = true ∧
  e.createTxOk = true ∧ e.simulateCallOk = true ∧ e.simErrIsNull = false

/-- One retry-loop iteration that falls through to the next attempt:
either its simulation is rejected, or its `perform_swap` call errors on
a non-final attempt. -/
def attemptContinues (e : AttemptEnv) (isLast : Bool) : Prop :=
  e.quoteOk = true ∧ e.ataOk = true ∧
  ((e.swapOk = true ∧ e.instructionsOk = true ∧ e.createTxOk = true ∧
    e.simulateCallOk = true ∧ e.simErrIsNull = false) ∨
   (e.swapOk = false ∧ isLast = false))

instance (e : AttemptEnv) : Decidable (simulationRejected e) := by
  unfold simulationRejected; infer_instance

instance (e : AttemptEnv) (isLast : Bool) : Decidable (attemptContinues e isLast) := by
  unfold attemptContinues; infer_instance

/-- The event trace of `executeLoop` when every attempt is simulation-
rejected: a quote and a failed simulation per attempt, with the slippage
escalated between attempts. -/
def simRejectTrace (m : Nat) : Nat → Nat → Nat → List ExecEvent
  | 0, _, _ => []
  | rem + 1, attempt, sl =>
    ExecEvent.quoteRequest attempt m sl :: ExecEvent.simulate attempt false ::
      simRejectTrace m rem (attempt + 1) (nextSlippage sl)

/-- The slippage used on attempt `i` under consecutive simulation
rejections: the initial value escalated `i` times. -/
def slippageSeq (initial : Nat) : Nat → Nat
  | 0 => initial
  | i + 1 => nextSlippage (slippageSeq initial i)

/-! ## Concrete inputs used by counterexamples and witnesses -/

/-- All external calls succeed; the simulation reports an error. -/
def attemptSimReject : AttemptEnv :=
  { quoteOk := true, ataOk := true, swapOk := true, instructionsOk := true,
    createTxOk := true, simulateCallOk := true, simErrIsNull := false,
    sendOk := true, confirmed := true, refundOk := true }

/-- All external calls succeed, clean simulation, confirmed broadcast. -/
def attemptHappy : AttemptEnv :=
  { attemptSimReject with simErrIsNull := true, confirmed := true }

/-- Clean simulation and broadcast, but the confirmation monitor returns
`false`; the refund succeeds. -/
def attemptConfirmFail : AttemptEnv :=
  { attemptSimReject with simErrIsNull := true, confirmed := false }

/-- `perform_swap` errors; the refund succeeds. -/
def attemptSwapFail : AttemptEnv :=
  { attemptSimReject with swapOk := false }

/-- Every attempt is simulation-rejected; `max_swap_amount` is 100. -/
def simRejectEnv : ExecEnv :=
  { balanceOk := true, rentOk := true, maxSwapAmount := 100,
    attempts := fun _ => attemptSimReject }

/-- First attempt succeeds end to end. -/
def happyEnv : ExecEnv :=
  { simRejectEnv with attempts := fun _ => attemptHappy }

/-- First attempt broadcasts but is never confirmed. -/
def confirmFailEnv : ExecEnv :=
  { simRejectEnv with attempts := fun _ => attemptConfirmFail }

/-- Every `perform_swap` call errors. -/
def swapFailEnv : ExecEnv :=
  { simRejectEnv with attempts := fun _ => attemptSwapFail }

/-- The computed `max_swap_amount` is zero. -/
def insufficientEnv : ExecEnv :=
  { simRejectEnv with maxSwapAmount := 0 }

/-- Kraken environment where every external call succeeds and every
price is 1 USD, so all notionals stay at the traded volume. -/
def krakenAllOk : KrakenEnv :=
  { assetPriceUsd := fun _ => .ok 1,
    addOrder := fun _ _ _ => .ok (),
    withdraw := fun _ _ _ _ => .ok () }

/-- Kraken environment whose price lookup fails, so the first leg of the
conversion chain (`execute_swap("BTCUSD", Sell, ..)`) returns `Err`. -/
def krakenSellFails : KrakenEnv :=
  { krakenAllOk with assetPriceUsd := fun _ => .error .internalServerError }

/-- User 1 with no deposits yet. -/
def user1 : User :=
  { userId := 1, totalDeposit := 0, totalPurchased := none,
    solanaPublicKey := some "UserOneSolanaAddress" }

/-- User 2 with no deposits yet. -/
def user2 : User :=
  { userId := 2, totalDeposit := 0, totalPurchased := none,
    solanaPublicKey := some "UserTwoSolanaAddress" }

/-- Stored transaction for address `a1`, still `Pending`, unprocessed. -/
def txPendingA1 : TxDoc :=
  { address := "a1", userId := some (.int64 1), status := some "Pending",
    processed := some false }

/-- Stored transaction for address `a1`, already `Success`, unprocessed. -/
def txSuccessA1 : TxDoc :=
  { address := "a1", userId := some (.int64 1), status := some "Success",
    processed := some false }

/-- Stored transaction for address `a1`, `Success` and processed. -/
def txProcessedA1 : TxDoc :=
  { address := "a1", userId := some (.int64 1), status := some "Success",
    processed := some true }

/-- Stored transaction for address `a2`, already `Success`, unprocessed. -/
def txSuccessA2 : TxDoc :=
  { address := "a2", userId := some (.int64 2), status := some "Success",
    processed := some false }

/-- Store with user 1's deposit still recorded `Pending`. -/
def dbPending : DB := { users := [user1, user2], txs := [txPendingA1, txSuccessA2] }

/-- Store with both deposits recorded `Success` and unprocessed. -/
def dbBothSuccess : DB := { users := [user1, user2], txs := [txSuccessA1, txSuccessA2] }

/-- Store where user 1's deposit is already processed. -/
def dbProcessed : DB := { users := [user1, user2], txs := [txProcessedA1, txSuccessA2] }

/-- Exchange entry: 1 BTC to address `a1`, freshly reported `Success`. -/
def entryA1 : DepositEntry :=
  { amount := .ok 1, status := "Success", time := 1700000000, address := "a1" }

/-- Exchange entry: 1 BTC to address `a2`, freshly reported `Success`. -/
def entryA2 : DepositEntry :=
  { amount := .ok 1, status := "Success", time := 1700000000, address := "a2" }

/-- Malformed stored transaction: status `"Success"` but the `processed`
field is missing, so `get_bool("processed").unwrap()` panics. -/
def txMalformedA1 : TxDoc :=
  { address := "a1", userId := some (.int64 1), status := some "Success",
    processed := none }

/-- Store holding only the malformed document. -/
def dbMalformed : DB := { users := [user1], txs := [txMalformedA1] }

/-- Kraken environment with BTC at 100 USD and SOL at 2 USD, every call
succeeding: selling 1 BTC yields a notional of 50 SOL. -/
def krakenPriced : KrakenEnv :=
  { assetPriceUsd := fun a => if a == "SOL" then .ok 2 else .ok 100,
    addOrder := fun _ _ _ => .ok (),
    withdraw := fun _ _ _ _ => .ok () }

/-! ## Trace bookkeeping lemmas -/

theorem refundEvents_nil : refundEvents [] = [] := rfl

theorem refundEvents_append (a b : List ExecEvent) :
    refundEvents (a ++ b) = refundEvents a ++ refundEvents b := by
  simp [refundEvents]

theorem refundEvents_quote (a b c : Nat) (l : List ExecEvent) :
    refundEvents (ExecEvent.quoteRequest a b c :: l) = refundEvents l := rfl

theorem refundEvents_sim (a : Nat) (b : Bool) (l : List ExecEvent) :
    refundEvents (ExecEvent.simulate a b :: l) = refundEvents l := rfl

theorem refundEvents_send (a : Nat) (l : List ExecEvent) :
    refundEvents (ExecEvent.sendTransaction a :: l) = refundEvents l := rfl

theorem refundEvents_refund (r : Pubkey) (n : Nat) (l : List ExecEvent) :
    refundEvents (ExecEvent.refund r n :: l) =
      ExecEvent.refund r n :: refundEvents l := rfl

/-- Refund behaviour of the retry loop: at most one refund is ever
attempted, and a refund (always of `m` lamports to `recv`) is attempted
exactly on the confirmation-failure path, the final-attempt
`perform_swap`-failure path and the failed-refund path — the three
results those paths produce. -/
theorem executeLoop_refund_spec (att : Nat → AttemptEnv) (m : Nat) (recv : Pubkey) :
    ∀ rem attempt sl,
      (refundEvents (executeLoop att m recv rem attempt sl).2).length ≤ 1 ∧
      (((executeLoop att m recv rem attempt sl).1 = ExecResult.transactionConfirmationErr ∨
        (executeLoop att m recv rem attempt sl).1 = ExecResult.swapErr ∨
        (executeLoop att m recv rem attempt sl).1 = ExecResult.refundErr) ↔
       refundEvents (executeLoop att m recv rem attempt sl).2 =
         [ExecEvent.refund recv m]) := by
  intro rem
  induction rem with
  | zero =>
    intro attempt sl
    simp [executeLoop, refundEvents]
  | succ n ih =>
    intro attempt sl
    cases hq : (att attempt).quoteOk with
    | false =>
      simp [executeLoop, hq, refundEvents]
    | true =>
    cases ha : (att attempt).ataOk with
    | false =>
      simp [executeLoop, hq, ha, refundEvents]
    | true =>
    cases hs : (att attempt).swapOk with
    | false =>
      by_cases hl : attempt = RETRY_LIMIT - 1
      · subst hl
        cases hr : (att (RETRY_LIMIT - 1)).refundOk with
        | false =>
          simp [executeLoop, hq, ha, hs, hr, refundEvents_quote, refundEvents_refund,
            refundEvents_nil]
        | true =>
          simp [executeLoop, hq, ha, hs, hr, refundEvents_quote, refundEvents_refund,
            refundEvents_nil]
      · have h' := ih (attempt + 1) sl
        simp only [executeLoop, hq, ha, hs, hl, Bool.false_eq_true, if_true, if_false,
          ite_false, ite_true]
        simp only [refundEvents_append, refundEvents_quote, refundEvents_nil,
          List.nil_append, List.cons_append, refundEvents_sim]
        exact h'
    | true =>
    cases hi : (att attempt).instructionsOk with
    | false =>
      simp [executeLoop, hq, ha, hs, hi, refundEvents]
    | true =>
    cases hc : (att attempt).createTxOk with
    | false =>
      simp [executeLoop, hq, ha, hs, hi, hc, refundEvents]
    | true =>
    cases hsc : (att attempt).simulateCallOk with
    | false =>
      simp [executeLoop, hq, ha, hs, hi, hc, hsc, refundEvents]
    | true =>
    cases hnull : (att attempt).simErrIsNull with
    | false =>
      have h' := ih (attempt + 1) (nextSlippage sl)
      simp only [executeLoop, hq, ha, hs, hi, hc, hsc, hnull, Bool.false_eq_true,
        if_true, if_false, ite_false, ite_true]
      simp only [refundEvents_append, refundEvents_quote, refundEvents_sim,
        refundEvents_nil, List.nil_append, List.append_nil, List.cons_append]
      exact h'
    | true =>
    cases hsend : (att attempt).sendOk with
    | false =>
      simp [executeLoop, hq, ha, hs, hi, hc, hsc, hnull, hsend, refundEvents]
    | true =>
    cases hconf : (att attempt).confirmed with
    | true =>
      simp [executeLoop, hq, ha, hs, hi, hc, hsc, hnull, hsend, hconf, refundEvents]
    | false =>
      cases hr : (att attempt).refundOk with
      | false =>
        simp [executeLoop, hq, ha, hs, hi, hc, hsc, hnull, hsend, hconf, hr,
          refundEvents]
      | true =>
        simp [executeLoop, hq, ha, hs, hi, hc, hsc, hnull, hsend, hconf, hr,
          refundEvents]

/-- C1 (counterexample): a run of `execute` in which every one of the
`RETRY_LIMIT` attempts fails at the simulation step — the claimed
"simulation never reaching success within the retry limit" path —
performs no refund at all (and returns `Ok(())`), not exactly one refund. -/
theorem C1_counterexample_sim_exhaustion_no_refund :
    (execute simRejectEnv "RefundTarget" 1500).1 = ExecResult.ok ∧
    refundEvents (execute simRejectEnv "RefundTarget" 1500).2 = [] ∧
    (execute simRejectEnv "RefundTarget" 1500).2 =
      [ExecEvent.quoteRequest 0 100 1500, ExecEvent.simulate 0 false,
       ExecEvent.quoteRequest 1 100 2500, ExecEvent.simulate 1 false,
       ExecEvent.quoteRequest 2 100 2500, ExecEvent.simulate 2 false] := by
  decide

/-- C1 (amended): in every run of `execute` at most one refund is ever
attempted, and a refund — always of the reserved `max_swap_amount`, to
the original destination — is attempted exactly when the run ends in
`TransactionConfirmationError` (confirmation returned `false`), in the
propagated `perform_swap` error of the final attempt, or in
`RefundError` (the refund itself failed).  The simulation-exhaustion
path performs no refund and returns `Ok(())`. -/
theorem C1_amended_refund_exactly_on_refund_paths (env : ExecEnv) (recv : Pubkey)
    (s : Nat) :
    (refundEvents (execute env recv s).2).length ≤ 1 ∧
    (((execute env recv s).1 = ExecResult.transactionConfirmationErr ∨
      (execute env recv s).1 = ExecResult.swapErr ∨
      (execute env recv s).1 = ExecResult.refundErr) ↔
     refundEvents (execute env recv s).2 =
       [ExecEvent.refund recv env.maxSwapAmount]) := by
  unfold execute
  cases hb : env.balanceOk with
  | false => simp [refundEvents]
  | true =>
    cases hr : env.rentOk with
    | false => simp [refundEvents]
    | true =>
      by_cases h0 : env.maxSwapAmount ≤ 0
      · simp [h0, refundEvents]
      · simp only [h0, if_true, if_false, ite_true, ite_false]
        exact executeLoop_refund_spec env.attempts env.maxSwapAmount recv RETRY_LIMIT 0 s

/-- C3 (counterexample): when the computed `max_swap_amount` is zero,
`execute` returns `Ok(())` — the success value, not an
`InsufficientBalance` error (no such variant even exists in
`LockinClientError`) — though it indeed performs no quote request and no
broadcast. -/
theorem C3_counterexample_zero_amount_returns_ok :
    (execute insufficientEnv "RefundTarget" 1500).1 = ExecResult.ok ∧
    (execute insufficientEnv "RefundTarget" 1500).2 = [] := by
  decide

/-- C3 (amended): if the computed `max_swap_amount` is `≤ 0` (zero, as a
`u64`), `execute` logs and returns `Ok(())` without calling the
swap-routing service: no quote request, no simulation, no broadcast, no
refund — its event trace is empty. -/
theorem C3_amended_insufficient_balance_silent_ok (env : ExecEnv) (recv : Pubkey)
    (s : Nat) (hb : env.balanceOk = true) (hr : env.rentOk = true)
    (h0 : env.maxSwapAmount ≤ 0) :
    execute env recv s = (ExecResult.ok, []) := by
  unfold execute
  rw [if_pos hb, if_pos hr, if_pos h0]

/-- C3 (witness): the amended claim applied to the concrete environment
with `max_swap_amount = 0`. -/
theorem C3_amended_witness :
    execute insufficientEnv "SomeTarget" 1500 = (ExecResult.ok, []) :=
  C3_amended_insufficient_balance_silent_ok insufficientEnv "SomeTarget" 1500
    (by decide) (by decide) (by decide)

/-- Inside the retry loop, a `sendTransaction` event at attempt `i` can
only arise in the branch whose simulation response had a null
`result.err`, and the matching clean-simulation event is in the trace. -/
theorem executeLoop_send_needs_clean_sim (att : Nat → AttemptEnv) (m : Nat)
    (recv : Pubkey) :
    ∀ rem attempt sl i,
      ExecEvent.sendTransaction i ∈ (executeLoop att m recv rem attempt sl).2 →
      (att i).simErrIsNull = true ∧
      ExecEvent.simulate i true ∈ (executeLoop att m recv rem attempt sl).2 := by
  intro rem
  induction rem with
  | zero =>
    intro attempt sl i h
    simp [executeLoop] at h
  | succ n ih =>
    intro attempt sl i h
    cases hq : (att attempt).quoteOk with
    | false => simp [executeLoop, hq] at h
    | true =>
    cases ha : (att attempt).ataOk with
    | false => simp [executeLoop, hq, ha] at h
    | true =>
    cases hs : (att attempt).swapOk with
    | false =>
      by_cases hl : attempt = RETRY_LIMIT - 1
      · subst hl
        cases hr : (att (RETRY_LIMIT - 1)).refundOk with
        | false => simp [executeLoop, hq, ha, hs, hr] at h
        | true => simp [executeLoop, hq, ha, hs, hr] at h
      · simp only [executeLoop, hq, ha, hs, hl, Bool.false_eq_true, if_true, if_false,
          ite_false, ite_true] at h ⊢
        rcases List.mem_append.mp h with h | h
        · simp at h
        · obtain ⟨h1, h2⟩ := ih (attempt + 1) sl i h
          exact ⟨h1, List.mem_append_right _ h2⟩
    | true =>
    cases hi : (att attempt).instructionsOk with
    | false => simp [executeLoop, hq, ha, hs, hi] at h
    | true =>
    cases hc : (att attempt).createTxOk with
    | false => simp [executeLoop, hq, ha, hs, hi, hc] at h
    | true =>
    cases hsc : (att attempt).simulateCallOk with
    | false => simp [executeLoop, hq, ha, hs, hi, hc, hsc] at h
    | true =>
    cases hnull : (att attempt).simErrIsNull with
    | false =>
      simp only [executeLoop, hq, ha, hs, hi, hc, hsc, hnull, Bool.false_eq_true,
        if_true, if_false, ite_false, ite_true] at h ⊢
      rcases List.mem_append.mp h with h | h
      · simp at h
      · obtain ⟨h1, h2⟩ := ih (attempt + 1) (nextSlippage sl) i h
        exact ⟨h1, List.mem_append_right _ h2⟩
    | true =>
      have hmem : i = attempt := by
        cases hsend : (att attempt).sendOk with
        | false =>
          simp [executeLoop, hq, ha, hs, hi, hc, hsc, hnull, hsend] at h
          exact h
        | true =>
          cases hconf : (att attempt).confirmed with
          | true =>
            simp [executeLoop, hq, ha, hs, hi, hc, hsc, hnull, hsend, hconf] at h
            exact h
          | false =>
            cases hrf : (att attempt).refundOk with
            | false =>
              simp [executeLoop, hq, ha, hs, hi, hc, hsc, hnull, hsend, hconf, hrf] at h
              exact h
            | true =>
              simp [executeLoop, hq, ha, hs, hi, hc, hsc, hnull, hsend, hconf, hrf] at h
              exact h
      subst hmem
      refine ⟨hnull, ?_⟩
      cases hsend : (att i).sendOk with
      | false => simp [executeLoop, hq, ha, hs, hi, hc, hsc, hnull, hsend]
      | true =>
        cases hconf : (att i).confirmed with
        | true => simp [executeLoop, hq, ha, hs, hi, hc, hsc, hnull, hsend, hconf]
        | false =>
          cases hrf : (att i).refundOk with
          | false => simp [executeLoop, hq, ha, hs, hi, hc, hsc, hnull, hsend, hconf, hrf]
          | true => simp [executeLoop, hq, ha, hs, hi, hc, hsc, hnull, hsend, hconf, hrf]

/-- C5 (confirmed): `execute` broadcasts only transactions whose local
simulation reported no error: whenever the trace of a run contains a
`sendTransaction` event for attempt `i`, that attempt's simulation
response had a null `result.err`, and the corresponding clean-simulation
event precedes in the same trace. -/
theorem C5_send_only_after_clean_simulation (env : ExecEnv) (recv : Pubkey)
    (s i : Nat)
    (h : ExecEvent.sendTransaction i ∈ (execute env recv s).2) :
    (env.attempts i).simErrIsNull = true ∧
    ExecEvent.simulate i true ∈ (execute env recv s).2 := by
  by_cases hb : env.balanceOk = true
  · by_cases hr : env.rentOk = true
    · by_cases h0 : env.maxSwapAmount ≤ 0
      · unfold execute at h
        rw [if_pos hb, if_pos hr, if_pos h0] at h
        simp at h
      · have hex : execute env recv s =
            executeLoop env.attempts env.maxSwapAmount recv RETRY_LIMIT 0 s := by
          unfold execute
          rw [if_pos hb, if_pos hr, if_neg h0]
        rw [hex] at h ⊢
        exact executeLoop_send_needs_clean_sim env.attempts env.maxSwapAmount recv
          RETRY_LIMIT 0 s i h
    · unfold execute at h
      rw [if_pos hb, if_neg hr] at h
      simp at h
  · unfold execute at h
    rw [if_neg hb] at h
    simp at h

/-- C5 (witness): in the happy-path run the broadcast of attempt 0 is in
the trace, and the theorem yields its clean simulation. -/
theorem C5_witness :
    (happyEnv.attempts 0).simErrIsNull = true ∧
    ExecEvent.simulate 0 true ∈ (execute happyEnv "RefundTarget" 1500).2 :=
  C5_send_only_after_clean_simulation happyEnv "RefundTarget" 1500 0 (by decide)

/-- If every remaining attempt falls through (simulation rejected, or a
`perform_swap` error on a non-final attempt), the loop exhausts and
returns `Ok(())` with no refund in its trace. -/
theorem executeLoop_exhaustion_ok (att : Nat → AttemptEnv) (m : Nat) (recv : Pubkey) :
    ∀ rem attempt sl,
      (∀ i, attempt ≤ i → i < attempt + rem →
        attemptContinues (att i) (decide (i = RETRY_LIMIT - 1))) →
      (executeLoop att m recv rem attempt sl).1 = ExecResult.ok ∧
      refundEvents (executeLoop att m recv rem attempt sl).2 = [] := by
  intro rem
  induction rem with
  | zero =>
    intro attempt sl _
    simp [executeLoop, refundEvents]
  | succ n ih =>
    intro attempt sl hcont
    obtain ⟨hq, ha, hrest⟩ := hcont attempt le_rfl (by omega)
    have htail : ∀ i, attempt + 1 ≤ i → i < attempt + 1 + n →
        attemptContinues (att i) (decide (i = RETRY_LIMIT - 1)) :=
      fun i h1 h2 => hcont i (by omega) (by omega)
    rcases hrest with ⟨hs, hi, hc, hsc, hnull⟩ | ⟨hs, hlast⟩
    · have h' := ih (attempt + 1) (nextSlippage sl) htail
      simp only [executeLoop, hq, ha, hs, hi, hc, hsc, hnull, Bool.false_eq_true,
        if_true, if_false, ite_false, ite_true]
      refine ⟨h'.1, ?_⟩
      rw [refundEvents_append, h'.2]
      simp [refundEvents]
    · have hl : ¬ attempt = RETRY_LIMIT - 1 := by
        intro hcontra
        rw [hcontra] at hlast
        simp at hlast
      have h' := ih (attempt + 1) sl htail
      simp only [executeLoop, hq, ha, hs, hl, Bool.false_eq_true, if_true, if_false,
        ite_false, ite_true]
      refine ⟨h'.1, ?_⟩
      rw [refundEvents_append, h'.2]
      simp [refundEvents]

/-- C6 (counterexample): a run whose three attempts all fail at the
simulation step exhausts the retry loop with no confirmed swap and no
refund, yet `execute` returns `Ok(())` — the success value — rather than
any `RetriesExhausted`-style error (no such variant exists). -/
theorem C6_counterexample_exhaustion_returns_success :
    (execute simRejectEnv "RefundTarget" 1500).1 = ExecResult.ok ∧
    ExecEvent.simulate 0 false ∈ (execute simRejectEnv "RefundTarget" 1500).2 ∧
    ExecEvent.simulate 1 false ∈ (execute simRejectEnv "RefundTarget" 1500).2 ∧
    ExecEvent.simulate 2 false ∈ (execute simRejectEnv "RefundTarget" 1500).2 := by
  decide

/-- C6 (amended): if the retry loop of `RETRY_LIMIT` attempts exhausts
without a successful confirmed swap and without a fatal refund path
having returned — every attempt either has its simulation rejected or
hits a `perform_swap` error on a non-final attempt — then `execute`
logs and returns `Ok(())` (a success result, with no refund attempted),
not a `RetriesExhausted` error. -/
theorem C6_amended_exhaustion_returns_ok (env : ExecEnv) (recv : Pubkey) (s : Nat)
    (hb : env.balanceOk = true) (hr : env.rentOk = true)
    (hm : 0 < env.maxSwapAmount)
    (hcont : ∀ i, i < RETRY_LIMIT →
      attemptContinues (env.attempts i) (decide (i = RETRY_LIMIT - 1))) :
    (execute env recv s).1 = ExecResult.ok ∧
    refundEvents (execute env recv s).2 = [] := by
  have hex : execute env recv s =
      executeLoop env.attempts env.maxSwapAmount recv RETRY_LIMIT 0 s := by
    unfold execute
    rw [if_pos hb, if_pos hr, if_neg (by omega)]
  rw [hex]
  exact executeLoop_exhaustion_ok env.attempts env.maxSwapAmount recv RETRY_LIMIT 0 s
    (fun i h1 h2 => hcont i (by omega))

/-- C6 (witness): the amended claim applied to the run whose three
simulations are all rejected. -/
theorem C6_amended_witness :
    (execute simRejectEnv "OtherTarget" 900).1 = ExecResult.ok ∧
    refundEvents (execute simRejectEnv "OtherTarget" 900).2 = [] :=
  C6_amended_exhaustion_returns_ok simRejectEnv "OtherTarget" 900
    (by decide) (by decide) (by decide) (by decide)

/-- Escalating a capped slippage value: doubling and re-capping a value
of the form `min a MAX_SLIPPAGE_BPS` caps the doubled value.  (For such
values the doubling stays below `2 * 2500 < 2 ^ 16`, so the `u16`
wrap-around never fires.) -/
theorem nextSlippage_min (a : Nat) :
    nextSlippage (min a MAX_SLIPPAGE_BPS) = min (a * 2) MAX_SLIPPAGE_BPS := by
  simp only [nextSlippage, MAX_SLIPPAGE_BPS, U16_MOD]
  omega

/-- For a capped initial slippage, the escalation sequence is exactly
`min (initial * 2 ^ i) MAX_SLIPPAGE_BPS`. -/
theorem slippageSeq_eq_min (initial : Nat) (h : initial ≤ MAX_SLIPPAGE_BPS) :
    ∀ i, slippageSeq initial i = min (initial * 2 ^ i) MAX_SLIPPAGE_BPS := by
  intro i
  induction i with
  | zero =>
    show initial = min (initial * 2 ^ 0) MAX_SLIPPAGE_BPS
    rw [pow_zero, mul_one, min_eq_left h]
  | succ n ihn =>
    show nextSlippage (slippageSeq initial n) = _
    rw [ihn, nextSlippage_min]
    congr 1
    rw [pow_succ, mul_assoc]

/-- When every attempt in range is simulation-rejected, the retry loop
returns `Ok(())` and its trace is `simRejectTrace`: one quote (at the
current slippage) and one failed simulation per attempt. -/
theorem executeLoop_simReject (att : Nat → AttemptEnv) (m : Nat) (recv : Pubkey) :
    ∀ rem attempt sl,
      (∀ i, i < attempt + rem → simulationRejected (att i)) →
      executeLoop att m recv rem attempt sl =
        (ExecResult.ok, simRejectTrace m rem attempt sl) := by
  intro rem
  induction rem with
  | zero =>
    intro attempt sl _
    simp [executeLoop, simRejectTrace]
  | succ n ih =>
    intro attempt sl hall
    obtain ⟨hq, ha, hs, hi, hc, hsc, hnull⟩ := hall attempt (by omega)
    have h' := ih (attempt + 1) (nextSlippage sl) (fun i h2 => hall i (by omega))
    simp only [executeLoop, hq, ha, hs, hi, hc, hsc, hnull, Bool.false_eq_true,
      if_true, if_false, ite_false, ite_true]
    rw [h']
    simp [simRejectTrace]

/-- C7 (counterexample): with `initial_slippage_bps = 3000` (a legal
`u16` value) and every simulation rejected, attempt 0 requests a quote
at slippage 3000 — above `MAX_SLIPPAGE_BPS = 2500` and different from
the claimed `min(initial * 2 ^ 0, MAX_SLIPPAGE_BPS) = 2500` — and
attempt 1 then uses 2500, a decrease from one attempt to the next. -/
theorem C7_counterexample_uncapped_initial_slippage :
    MAX_SLIPPAGE_BPS < 3000 ∧
    ExecEvent.quoteRequest 0 100 3000 ∈ (execute simRejectEnv "RefundTarget" 3000).2 ∧
    ExecEvent.quoteRequest 0 100 (min (3000 * 2 ^ 0) MAX_SLIPPAGE_BPS) ∉
      (execute simRejectEnv "RefundTarget" 3000).2 ∧
    ExecEvent.quoteRequest 1 100 2500 ∈ (execute simRejectEnv "RefundTarget" 3000).2 ∧
    2500 < 3000 := by
  decide

/-- C7 (amended): provided the initial slippage does not exceed
`MAX_SLIPPAGE_BPS`, under consecutive simulation rejections the slippage
used on attempt `i` equals `min (initial * 2 ^ i) MAX_SLIPPAGE_BPS`;
that sequence never decreases between attempts and never exceeds
`MAX_SLIPPAGE_BPS`.  (An uncapped initial value is used as-is on attempt
0, which is what the counterexample exhibits.) -/
theorem C7_amended_slippage_escalation (env : ExecEnv) (recv : Pubkey)
    (initial : Nat) (hinit : initial ≤ MAX_SLIPPAGE_BPS)
    (hb : env.balanceOk = true) (hr : env.rentOk = true)
    (hm : 0 < env.maxSwapAmount)
    (hall : ∀ i, i < RETRY_LIMIT → simulationRejected (env.attempts i)) :
    ∀ i, i < RETRY_LIMIT →
      ExecEvent.quoteRequest i env.maxSwapAmount
          (min (initial * 2 ^ i) MAX_SLIPPAGE_BPS) ∈ (execute env recv initial).2 ∧
      min (initial * 2 ^ i) MAX_SLIPPAGE_BPS ≤
        min (initial * 2 ^ (i + 1)) MAX_SLIPPAGE_BPS ∧
      min (initial * 2 ^ i) MAX_SLIPPAGE_BPS ≤ MAX_SLIPPAGE_BPS := by
  have hexec : execute env recv initial =
      (ExecResult.ok, simRejectTrace env.maxSwapAmount RETRY_LIMIT 0 initial) := by
    unfold execute
    rw [if_pos hb, if_pos hr, if_neg (by omega)]
    exact executeLoop_simReject env.attempts env.maxSwapAmount recv RETRY_LIMIT 0
      initial (fun i h2 => hall i (by omega))
  have e0 : min (initial * 2 ^ 0) MAX_SLIPPAGE_BPS = initial := by
    rw [pow_zero, mul_one, min_eq_left hinit]
  have e1 : nextSlippage initial = min (initial * 2) MAX_SLIPPAGE_BPS := by
    have h := nextSlippage_min initial
    rwa [min_eq_left hinit] at h
  have e2 : nextSlippage (nextSlippage initial) =
      min (initial * 4) MAX_SLIPPAGE_BPS := by
    rw [e1, nextSlippage_min]
    congr 1
    ring
  intro i hiR
  have hi3 : i < 3 := hiR
  refine ⟨?_, ?_, min_le_right _ _⟩
  · rw [hexec]
    interval_cases i
    · rw [e0]
      simp [simRejectTrace]
    · rw [pow_one, ← e1]
      simp [simRejectTrace]
    · rw [show (2 : Nat) ^ 2 = 4 by norm_num, ← e2]
      simp [simRejectTrace]
  · refine min_le_min (Nat.mul_le_mul_left initial ?_) le_rfl
    exact Nat.pow_le_pow_right (by norm_num) (by omega)

/-- C7 (witness): the amended claim applied at initial slippage 1500 and
attempt 1, giving the quote at `min(1500 * 2, 2500) = 2500` in the
trace. -/
theorem C7_amended_witness :
    ExecEvent.quoteRequest 1 simRejectEnv.maxSwapAmount
        (min (1500 * 2 ^ 1) MAX_SLIPPAGE_BPS) ∈
      (execute simRejectEnv "RefundTarget" 1500).2 ∧
    min (1500 * 2 ^ 1) MAX_SLIPPAGE_BPS ≤ min (1500 * 2 ^ 2) MAX_SLIPPAGE_BPS ∧
    min (1500 * 2 ^ 1) MAX_SLIPPAGE_BPS ≤ MAX_SLIPPAGE_BPS :=
  C7_amended_slippage_escalation simRejectEnv "RefundTarget" 1500
    (by decide) (by decide) (by decide) (by decide) (by decide) 1 (by decide)

/-- The confirmation loop makes at most `rem` polls. -/
theorem confirmLoop_pollsMade_le (polls : Nat → PollOutcome) :
    ∀ rem i b, (confirmLoop polls rem i b).pollsMade ≤ rem := by
  intro rem
  induction rem with
  | zero => intro i b; simp [confirmLoop]
  | succ n ih =>
    intro i b
    cases h : polls i with
    | someResult => simp [confirmLoop, h]
    | rpcError =>
      simp only [confirmLoop, h]
      have := ih (i + 1) (b * 2)
      omega
    | nullResult =>
      simp only [confirmLoop, h]
      have := ih (i + 1) (b * 2)
      omega

/-- The confirmation loop returns `true` exactly when one of the `rem`
polls starting at index `i` reports a non-null result. -/
theorem confirmLoop_confirmed_iff (polls : Nat → PollOutcome) :
    ∀ rem i b, (confirmLoop polls rem i b).confirmed = true ↔
      ∃ k, k < rem ∧ polls (i + k) = PollOutcome.someResult := by
  intro rem
  induction rem with
  | zero => intro i b; simp [confirmLoop]
  | succ n ih =>
    intro i b
    cases h : polls i with
    | someResult =>
      simp only [confirmLoop, h]
      constructor
      · intro _
        exact ⟨0, by omega, by simpa using h⟩
      · intro _
        trivial
    | rpcError =>
      simp only [confirmLoop, h]
      rw [ih (i + 1) (b * 2)]
      constructor
      · rintro ⟨k, hk, hp⟩
        exact ⟨k + 1, by omega, by rwa [show i + (k + 1) = i + 1 + k by omega]⟩
      · rintro ⟨k, hk, hp⟩
        cases k with
        | zero => rw [Nat.add_zero, h] at hp; cases hp
        | succ k2 => exact ⟨k2, by omega, by rwa [show i + 1 + k2 = i + (k2 + 1) by omega]⟩
    | nullResult =>
      simp only [confirmLoop, h]
      rw [ih (i + 1) (b * 2)]
      constructor
      · rintro ⟨k, hk, hp⟩
        exact ⟨k + 1, by omega, by rwa [show i + (k + 1) = i + 1 + k by omega]⟩
      · rintro ⟨k, hk, hp⟩
        cases k with
        | zero => rw [Nat.add_zero, h] at hp; cases hp
        | succ k2 => exact ⟨k2, by omega, by rwa [show i + 1 + k2 = i + (k2 + 1) by omega]⟩

/-- The back-off sleeps of the confirmation loop start at `b` seconds
and double after each poll. -/
theorem confirmLoop_delays (polls : Nat → PollOutcome) :
    ∀ rem i b, (confirmLoop polls rem i b).delays =
      (List.range (confirmLoop polls rem i b).delays.length).map
        (fun k => b * 2 ^ k) := by
  intro rem
  induction rem with
  | zero => intro i b; simp [confirmLoop]
  | succ n ih =>
    intro i b
    cases h : polls i with
    | someResult => simp [confirmLoop, h]
    | rpcError =>
      simp only [confirmLoop, h]
      rw [List.length_cons, List.range_succ_eq_map]
      simp only [List.map_cons, pow_zero, mul_one, List.map_map]
      congr 1
      have hfun : ((fun k => b * 2 ^ k) ∘ Nat.succ) = fun k => b * 2 * 2 ^ k := by
        funext k
        simp only [Function.comp_apply, pow_succ]
        ring
      rw [hfun]
      exact ih (i + 1) (b * 2)
    | nullResult =>
      simp only [confirmLoop, h]
      rw [List.length_cons, List.range_succ_eq_map]
      simp only [List.map_cons, pow_zero, mul_one, List.map_map]
      congr 1
      have hfun : ((fun k => b * 2 ^ k) ∘ Nat.succ) = fun k => b * 2 * 2 ^ k := by
        funext k
        simp only [Function.comp_apply, pow_succ]
        ring
      rw [hfun]
      exact ih (i + 1) (b * 2)

/-- If the first non-null poll is the `k`-th one (zero-based), the
confirmation loop returns `true` after exactly `k + 1` polls. -/
theorem confirmLoop_first_success (polls : Nat → PollOutcome) :
    ∀ rem i b k, k < rem →
      (∀ j, j < k → polls (i + j) ≠ PollOutcome.someResult) →
      polls (i + k) = PollOutcome.someResult →
      (confirmLoop polls rem i b).confirmed = true ∧
      (confirmLoop polls rem i b).pollsMade = k + 1 := by
  intro rem
  induction rem with
  | zero => intro i b k hk _ _; omega
  | succ n ih =>
    intro i b k hk hbefore hsucc
    cases h : polls i with
    | someResult =>
      have hk0 : k = 0 := by
        by_contra hne
        exact hbefore 0 (by omega) (by rwa [Nat.add_zero])
      subst hk0
      simp [confirmLoop, h]
    | rpcError =>
      have hk0 : k ≠ 0 := by
        intro h0
        rw [h0, Nat.add_zero, h] at hsucc
        cases hsucc
      obtain ⟨k2, rfl⟩ : ∃ k2, k = k2 + 1 := ⟨k - 1, by omega⟩
      have h' := ih (i + 1) (b * 2) k2 (by omega)
        (fun j hj => by
          have := hbefore (j + 1) (by omega)
          rwa [show i + (j + 1) = i + 1 + j by omega] at this)
        (by rwa [show i + 1 + k2 = i + (k2 + 1) by omega])
      simp only [confirmLoop, h]
      exact ⟨h'.1, by rw [h'.2]⟩
    | nullResult =>
      have hk0 : k ≠ 0 := by
        intro h0
        rw [h0, Nat.add_zero, h] at hsucc
        cases hsucc
      obtain ⟨k2, rfl⟩ : ∃ k2, k = k2 + 1 := ⟨k - 1, by omega⟩
      have h' := ih (i + 1) (b * 2) k2 (by omega)
        (fun j hj => by
          have := hbefore (j + 1) (by omega)
          rwa [show i + (j + 1) = i + 1 + j by omega] at this)
        (by rwa [show i + 1 + k2 = i + (k2 + 1) by omega])
      simp only [confirmLoop, h]
      exact ⟨h'.1, by rw [h'.2]⟩

/-- C8 (confirmed): `confirm_transaction` polls the confirmation lookup
at most `CONFIRMATION_RETRIES = 5` times; its back-off sleeps start at
the fixed 5-second base and double after each attempt; it returns `true`
exactly when one of the first 5 polls reports a non-null `result` —
stopping at the first such poll — and otherwise (all retries exhausted
or every poll erroring) it returns `false`, a value, never an error or a
panic. -/
theorem C8_confirm_transaction_contract (polls : Nat → PollOutcome) :
    (confirmTransaction polls).pollsMade ≤ CONFIRMATION_RETRIES ∧
    ((confirmTransaction polls).confirmed = true ↔
      ∃ k, k < CONFIRMATION_RETRIES ∧ polls k = PollOutcome.someResult) ∧
    (confirmTransaction polls).delays =
      (List.range (confirmTransaction polls).delays.length).map
        (fun k => 5 * 2 ^ k) ∧
    (∀ k, k < CONFIRMATION_RETRIES →
      (∀ j, j < k → polls j ≠ PollOutcome.someResult) →
      polls k = PollOutcome.someResult →
      (confirmTransaction polls).confirmed = true ∧
      (confirmTransaction polls).pollsMade = k + 1) := by
  refine ⟨confirmLoop_pollsMade_le polls CONFIRMATION_RETRIES 0 5, ?_, ?_, ?_⟩
  · rw [confirmTransaction, confirmLoop_confirmed_iff polls CONFIRMATION_RETRIES 0 5]
    simp
  · exact confirmLoop_delays polls CONFIRMATION_RETRIES 0 5
  · intro k hk hbefore hsucc
    exact confirmLoop_first_success polls CONFIRMATION_RETRIES 0 5 k hk
      (fun j hj => by simpa using hbefore j hj) (by simpa using hsucc)

/-- C8 (witness): the contract applied to the poll sequence whose third
poll is the first non-null one — 3 polls made, true returned, back-off
5 then 10 seconds. -/
theorem C8_contract_witness :
    (confirmTransaction fun i => if i = 2 then PollOutcome.someResult
      else PollOutcome.rpcError).confirmed = true ∧
    (confirmTransaction fun i => if i = 2 then PollOutcome.someResult
      else PollOutcome.rpcError).pollsMade = 2 + 1 :=
  (C8_confirm_transaction_contract fun i => if i = 2 then PollOutcome.someResult
      else PollOutcome.rpcError).2.2.2 2 (by decide) (by decide) (by decide)

/-- `process_user_transaction` always starts by writing the new running
deposit sum `total_deposit + amount`, whatever the fresh status is. -/
theorem processUserTransaction_events_head (env : KrakenEnv) (db : DB)
    (amount : Amount) (uid : Int) (status : String) (u : User) :
    ∃ tl, (processUserTransaction env db amount uid status u).2.2 =
      PollEvent.setTotalDeposit uid (u.totalDeposit + amount) :: tl := by
  unfold processUserTransaction
  by_cases h : (status == "Success") = true
  · rw [if_pos h]
    exact ⟨_, rfl⟩
  · rw [if_neg h]
    exact ⟨[], rfl⟩

/-- The conversion chain (its first leg is the BTC sell order) runs only
under a fresh `"Success"` status. -/
theorem processUserTransaction_sellOrder_needs_success (env : KrakenEnv) (db : DB)
    (amount : Amount) (uid : Int) (status : String) (u : User) (v : Amount) :
    PollEvent.sellOrder v ∈ (processUserTransaction env db amount uid status u).2.2 →
    status = "Success" := by
  unfold processUserTransaction
  by_cases h : (status == "Success") = true
  · intro _
    exact eq_of_beq h
  · rw [if_neg h]
    intro hm
    simp at hm

unseal Rat.mul Rat.add Rat.sub Rat.inv in
/-- C2 (counterexample): a deposit whose freshly reported status is
`"Success"` and whose stored `processed` flag is `false`, but whose
stored status snapshot still says `"Pending"`, is NOT processed in this
cycle: the store's status field is updated, yet no deposit increment and
no conversion chain happen — the gate reads the stale snapshot, not the
fresh status. -/
theorem C2_counterexample_fresh_success_stale_pending :
    entryA1.status = "Success" ∧
    txPendingA1.processed = some false ∧
    findTx dbPending "a1" = some txPendingA1 ∧
    (pollKraken krakenAllOk dbPending [entryA1]).1 = StepOutcome.ok ∧
    (pollKraken krakenAllOk dbPending [entryA1]).2.2 =
      [PollEvent.setTxStatus "a1" "Success"] ∧
    (pollKraken krakenAllOk dbPending [entryA1]).2.1.users = dbPending.users := by
  decide

/-- C2 (amended): the only gate deciding per-cycle processing is
`should_process_transaction` evaluated on the *pre-update snapshot* of
the stored document: the deposit-total increment happens iff the stored
snapshot's status equals `"Success"` and its `processed` flag is false,
and the conversion chain additionally requires the freshly reported
status to be `"Success"`. -/
theorem C2_amended_gate_is_stored_snapshot (env : KrakenEnv) (db : DB) (uid : Int)
    (amount : Amount) (addr status : String) (tx : TxDoc)
    (hu : (findUser db uid).isSome = true) :
    ((∃ v, PollEvent.setTotalDeposit uid v ∈
        (handleTransaction env db uid amount addr status tx).2.2) ↔
      shouldProcessTransaction tx = some true) ∧
    (∀ v, PollEvent.sellOrder v ∈
        (handleTransaction env db uid amount addr status tx).2.2 →
      shouldProcessTransaction tx = some true ∧ status = "Success") := by
  obtain ⟨u, hu2⟩ := Option.isSome_iff_exists.mp hu
  unfold handleTransaction
  rw [hu2]
  cases hsp : shouldProcessTransaction tx with
  | none => simp
  | some b =>
    cases b with
    | false => simp
    | true =>
      obtain ⟨tl, htl⟩ := processUserTransaction_events_head env
        (updateTxStatus db addr status) amount uid status u
      have hsell := fun v => processUserTransaction_sellOrder_needs_success env
        (updateTxStatus db addr status) amount uid status u v
      cases ho : (processUserTransaction env (updateTxStatus db addr status)
          amount uid status u).1 with
      | ok =>
        simp only [ho]
        refine ⟨⟨fun _ => trivial, fun _ => ⟨u.totalDeposit + amount, by simp [htl]⟩⟩,
          fun v hv => ⟨trivial, ?_⟩⟩
        rcases List.mem_append.mp hv with hv | hv
        · rcases List.mem_append.mp hv with hv | hv
          · simp at hv
          · exact hsell v hv
        · simp at hv
      | err e =>
        simp only [ho]
        refine ⟨⟨fun _ => trivial, fun _ => ⟨u.totalDeposit + amount, by simp [htl]⟩⟩,
          fun v hv => ⟨trivial, ?_⟩⟩
        rcases List.mem_append.mp hv with hv | hv
        · simp at hv
        · exact hsell v hv
      | panicked =>
        simp only [ho]
        refine ⟨⟨fun _ => trivial, fun _ => ⟨u.totalDeposit + amount, by simp [htl]⟩⟩,
          fun v hv => ⟨trivial, ?_⟩⟩
        rcases List.mem_append.mp hv with hv | hv
        · simp at hv
        · exact hsell v hv

/-- C2 (witness): the amended gate applied to the stale-`Pending`
snapshot — the deposit increment happens iff the stale snapshot's gate
passes. -/
theorem C2_amended_witness :
    (∃ v, PollEvent.setTotalDeposit 1 v ∈
        (handleTransaction krakenAllOk dbPending 1 1 "a1" "Success" txPendingA1).2.2) ↔
      shouldProcessTransaction txPendingA1 = some true :=
  (C2_amended_gate_is_stored_snapshot krakenAllOk dbPending 1 1 "a1" "Success"
    txPendingA1 (by decide)).1

/-- A stored document whose `processed` flag is already `true` never
passes the deduplication gate. -/
theorem shouldProcess_false_of_processed (tx : TxDoc)
    (hp : tx.processed = some true) :
    shouldProcessTransaction tx = some false := by
  unfold shouldProcessTransaction
  split
  · rw [hp]
    split
    · rfl
    · rfl
  · rfl

/-- C4 (confirmed): replaying a deposit-status entry against a stored
document whose `processed` flag was set to `true` by the first run never
increments the user's `total_deposit` and never invokes the conversion
chain again: the handler returns `Ok`, leaves the `users` collection
untouched, and its only effect is the status write-through. -/
theorem C4_processed_flag_prevents_reprocessing (env : KrakenEnv) (db : DB)
    (uid : Int) (amount : Amount) (addr status : String) (tx : TxDoc)
    (hp : tx.processed = some true) :
    (handleTransaction env db uid amount addr status tx).1 = StepOutcome.ok ∧
    (handleTransaction env db uid amount addr status tx).2.1.users = db.users ∧
    ∀ e ∈ (handleTransaction env db uid amount addr status tx).2.2,
      ∃ a s, e = PollEvent.setTxStatus a s := by
  have hgate := shouldProcess_false_of_processed tx hp
  unfold handleTransaction
  cases hu : findUser db uid with
  | none => exact ⟨rfl, rfl, by simp⟩
  | some u =>
    rw [hgate]
    refine ⟨rfl, rfl, ?_⟩
    intro e he
    simp at he
    exact ⟨addr, status, he⟩

/-- C4 (witness): the already-processed document replayed on a fresh
`"Success"` report — no deposit increase, no chain. -/
theorem C4_witness :
    (handleTransaction krakenAllOk dbProcessed 1 1 "a1" "Success" txProcessedA1).1 =
      StepOutcome.ok ∧
    (handleTransaction krakenAllOk dbProcessed 1 1 "a1" "Success"
      txProcessedA1).2.1.users = dbProcessed.users ∧
    ∀ e ∈ (handleTransaction krakenAllOk dbProcessed 1 1 "a1" "Success"
      txProcessedA1).2.2, ∃ a s, e = PollEvent.setTxStatus a s :=
  C4_processed_flag_prevents_reprocessing krakenAllOk dbProcessed 1 1 "a1" "Success"
    txProcessedA1 (by decide)

unseal Rat.mul Rat.add Rat.sub Rat.inv in
/-- C9 (counterexample): with two eligible deposits in one cycle, a
conversion-chain error on the first makes `poll_kraken` return `Err` —
the cycle is aborted and the second (eligible) deposit is not examined:
no events for it, its user and its stored document untouched.  And a
stored document with status `"Success"` but no boolean `processed` field
panics the poller task. -/
theorem C9_counterexample_error_aborts_cycle :
    (pollKraken krakenSellFails dbBothSuccess [entryA1, entryA2]).1 =
      StepOutcome.err AppErr.internalServerError ∧
    (pollKraken krakenSellFails dbBothSuccess [entryA1, entryA2]).2.2 =
      [PollEvent.setTxStatus "a1" "Success", PollEvent.setTotalDeposit 1 1,
       PollEvent.sellOrder 1] ∧
    findUser (pollKraken krakenSellFails dbBothSuccess [entryA1, entryA2]).2.1 2 =
      some user2 ∧
    findTx (pollKraken krakenSellFails dbBothSuccess [entryA1, entryA2]).2.1 "a2" =
      some txSuccessA2 ∧
    (pollKraken krakenAllOk dbMalformed [entryA1]).1 = StepOutcome.panicked := by
  decide

/-- C9 (amended): a per-deposit failure does not merely skip that
deposit: `poll_kraken` propagates the error immediately, aborting the
remainder of the cycle (the cycle's result is that of the failing
deposit alone); a missing/mistyped `processed` field panics the task;
only the outer `start_poller` loop survives an `Err` (it logs and goes
on to the next cycle), while a panic kills it. -/
theorem C9_amended_error_aborts_cycle_loop_continues (env : KrakenEnv) (db : DB)
    (entry : DepositEntry) (rest entries : List DepositEntry) :
    ((pollKraken env db [entry]).1 ≠ StepOutcome.ok →
      pollKraken env db (entry :: rest) = pollKraken env db [entry]) ∧
    ((startPollerCycle env db entries).isSome = true ↔
      (pollKraken env db entries).1 ≠ StepOutcome.panicked) := by
  constructor
  · intro h
    cases hamt : entry.amount with
    | error e => simp [pollKraken, hamt]
    | ok amount =>
      cases htx : findTx db entry.address with
      | none =>
        exact absurd (by simp [pollKraken, hamt, htx]) h
      | some tx =>
        cases huid : tx.userId with
        | none => exact absurd (by simp [pollKraken, hamt, htx, huid]) h
        | some b =>
          cases b with
          | otherType => exact absurd (by simp [pollKraken, hamt, htx, huid]) h
          | int32 n =>
            cases ho : (handleTransaction env db n amount entry.address
                entry.status tx).1 with
            | ok => exact absurd (by simp [pollKraken, hamt, htx, huid, ho]) h
            | err e => simp [pollKraken, hamt, htx, huid, ho]
            | panicked => simp [pollKraken, hamt, htx, huid, ho]
          | int64 n =>
            cases ho : (handleTransaction env db n amount entry.address
                entry.status tx).1 with
            | ok => exact absurd (by simp [pollKraken, hamt, htx, huid, ho]) h
            | err e => simp [pollKraken, hamt, htx, huid, ho]
            | panicked => simp [pollKraken, hamt, htx, huid, ho]
  · rcases hpoll : pollKraken env db entries with ⟨o, db1, evs⟩
    unfold startPollerCycle
    rw [hpoll]
    cases o <;> simp

unseal Rat.mul Rat.add Rat.sub Rat.inv in
/-- C9 (witness): the amended claim applied to the two-deposit cycle
whose first deposit's conversion chain errors. -/
theorem C9_amended_witness :
    pollKraken krakenSellFails dbBothSuccess (entryA1 :: [entryA2]) =
      pollKraken krakenSellFails dbBothSuccess [entryA1] ∧
    ((startPollerCycle krakenSellFails dbBothSuccess [entryA1, entryA2]).isSome =
        true ↔
      (pollKraken krakenSellFails dbBothSuccess [entryA1, entryA2]).1 ≠
        StepOutcome.panicked) :=
  ⟨(C9_amended_error_aborts_cycle_loop_continues krakenSellFails dbBothSuccess entryA1
      [entryA2] [entryA1, entryA2]).1 (by decide),
   (C9_amended_error_aborts_cycle_loop_continues krakenSellFails dbBothSuccess entryA1
      [entryA2] [entryA1, entryA2]).2⟩

/-- When the on-chain leg is spawned, the same run writes
`total_purchased := new_total_deposit` and nothing else to the store. -/
theorem processSuccessfulTransaction_lockin_sets_purchased (env : KrakenEnv)
    (db : DB) (amount : Amount) (userSol : String) (uid : Int) (ntd : Amount)
    (h : ∃ addr a, PollEvent.lockinLaunched addr a ∈
      (processSuccessfulTransaction env db amount userSol uid ntd).2.2) :
    PollEvent.setTotalPurchased uid ntd ∈
      (processSuccessfulTransaction env db amount userSol uid ntd).2.2 ∧
    (processSuccessfulTransaction env db amount userSol uid ntd).2.1 =
      updateUserTotalPurchased db uid ntd := by
  obtain ⟨addr, a, hm⟩ := h
  unfold processSuccessfulTransaction at hm ⊢
  by_cases h1 : amount ≤ 0
  · rw [if_pos h1] at hm
    simp at hm
  · rw [if_neg h1] at hm ⊢
    by_cases h2 : amount < 1 / 10000
    · rw [if_pos h2] at hm
      simp at hm
    · rw [if_neg h2] at hm ⊢
      cases hsell : executeSwapK env "BTCUSD" OrderSide.sell amount with
      | error e =>
        rw [hsell] at hm
        simp at hm
      | ok btcResp =>
        rw [hsell] at hm
        dsimp only at hm ⊢
        cases hbuy : executeSwapK env "SOLUSD" OrderSide.buy
            btcResp.notionalSolValue with
        | error e =>
          rw [hbuy] at hm
          simp at hm
        | ok solResp =>
          rw [hbuy] at hm
          dsimp only at hm ⊢
          by_cases h3 : solResp.notionalSolValue < 1 / 10000
          · rw [if_pos h3] at hm
            simp at hm
          · rw [if_neg h3] at hm ⊢
            cases hw : env.withdraw "SOL" "bottest"
                "fdXt9eYUTCCeDdrURxS9u6ALnHPLXBNuc1MNqmSR7jA"
                solResp.notionalSolValue with
            | error e =>
              rw [hw] at hm
              simp at hm
            | ok u =>
              rw [hw] at hm
              dsimp only at hm ⊢
              exact ⟨by simp, rfl⟩

/-- C10 (confirmed): whenever the conversion chain launched by the
poller reaches the spawned on-chain leg, the owning user's
`total_purchased` field is set to the new running deposit sum
`total_deposit + amount` — not to the quantity of the target asset that
the chain actually purchased. -/
theorem C10_total_purchased_is_deposit_sum (env : KrakenEnv) (db : DB)
    (amount : Amount) (uid : Int) (status : String) (u : User)
    (h : ∃ addr a, PollEvent.lockinLaunched addr a ∈
      (processUserTransaction env db amount uid status u).2.2) :
    PollEvent.setTotalPurchased uid (u.totalDeposit + amount) ∈
      (processUserTransaction env db amount uid status u).2.2 := by
  obtain ⟨addr, a, hm⟩ := h
  unfold processUserTransaction at hm ⊢
  by_cases hst : (status == "Success") = true
  · rw [if_pos hst] at hm ⊢
    rcases List.mem_append.mp hm with hm | hm
    · simp at hm
    · have := (processSuccessfulTransaction_lockin_sets_purchased env
        (updateUserTotalDeposit db uid (u.totalDeposit + amount)) amount
        (u.solanaPublicKey.getD "") uid (u.totalDeposit + amount)
        ⟨addr, a, hm⟩).1
      exact List.mem_append_right _ this
  · rw [if_neg hst] at hm
    simp at hm

unseal Rat.mul Rat.add Rat.sub Rat.inv in
/-- C10 (witness): selling 1 BTC at 100 USD with SOL at 2 USD purchases
50 SOL, yet `total_purchased` is set to the deposit sum 1 — visibly not
the purchased quantity. -/
theorem C10_witness :
    PollEvent.setTotalPurchased 1 (user1.totalDeposit + 1) ∈
      (processUserTransaction krakenPriced dbBothSuccess 1 1 "Success" user1).2.2 ∧
    PollEvent.lockinLaunched "UserOneSolanaAddress" 50 ∈
      (processUserTransaction krakenPriced dbBothSuccess 1 1 "Success" user1).2.2 ∧
    user1.totalDeposit + 1 = 1 ∧ (1 : Amount) ≠ 50 :=
  ⟨C10_total_purchased_is_deposit_sum krakenPriced dbBothSuccess 1 1 "Success" user1
      ⟨"UserOneSolanaAddress", 50, by decide⟩,
   by decide, by decide, by decide⟩

end Coinlocker
